import Mathlib

/-
Verification of the structural-extraction and generation-orchestration logic
of content_brief_app.py (AI Content Generation from URL).

The parsed HTML document (BeautifulSoup tree) is embedded as a tree of nodes;
`find_all` returns the descendant elements with a given tag in document
(pre-)order, `find` the first of them, mirroring BeautifulSoup semantics.
Python dict records produced by `extract_content` are embedded as association
lists so that the exact set of fields present in each record is visible.
The Streamlit generation flow (lines 145-181 of the source) is embedded as a
pure function of an oracle giving the result of each external OpenAI call
(`none` models the caught exception / returned None).
-/

namespace ContentBriefApp

/-- A node of the parsed HTML tree: a text node, or an element with a tag,
an attribute list and children. -/
inductive Node where
  | text : String → Node
  | elem : String → List (String × String) → List Node → Node
deriving Repr

mutual

/-- The node itself followed by all its descendants, in document (pre-)order. -/
def Node.allNodes : Node → List Node
  | .text s => [Node.text s]
  | .elem t a cs => Node.elem t a cs :: allNodesList cs

/-- All nodes of a forest, in document (pre-)order. -/
def allNodesList : List Node → List Node
  | [] => []
  | n :: ns => n.allNodes ++ allNodesList ns

end

/-- The strict descendants of a node, in document (pre-)order. -/
def Node.descendants : Node → List Node
  | .text _ => []
  | .elem _ _ cs => allNodesList cs

/-- The tag of an element node, `none` for a text node. -/
def Node.tagOf : Node → Option String
  | .text _ => none
  | .elem t _ _ => some t

/-- `el.find_all(tag)`: all descendant elements with the given tag, in
document order (BeautifulSoup `find_all`). -/
def Node.find_all (n : Node) (tag : String) : List Node :=
  n.descendants.filter (fun m => m.tagOf == some tag)

/-- `el.find(tag)`: the first descendant element with the given tag
(BeautifulSoup `find`), `none` when there is none. -/
def Node.find (n : Node) (tag : String) : Option Node :=
  (n.find_all tag).head?

mutual

/-- The contents of the descendant-or-self text nodes, in document order. -/
def Node.strings : Node → List String
  | .text s => [s]
  | .elem _ _ cs => stringsList cs

/-- The text-node contents of a forest, in document order. -/
def stringsList : List Node → List String
  | [] => []
  | n :: ns => n.strings ++ stringsList ns

end

/-- The whitespace characters stripped by Python's str.strip() (ASCII
range). -/
def py_space_chars : List Char := [' ', '\t', '\n', '\r', '\x0b', '\x0c']

/-- Drop the leading whitespace characters of a character list. -/
def dropLeadingSpace : List Char → List Char
  | [] => []
  | c :: cs =>
      if py_space_chars.contains c then dropLeadingSpace cs else c :: cs

/-- Python str.strip(): surrounding whitespace removed on both sides. -/
def py_strip (s : String) : String :=
  ⟨(dropLeadingSpace ((dropLeadingSpace s.data).reverse)).reverse⟩

/-- `el.get_text(strip=True)`: each descendant string stripped of surrounding
whitespace, empty results dropped, the rest concatenated. -/
def Node.get_text_strip (n : Node) : String :=
  String.join ((n.strings.map py_strip).filter (fun s => s != ""))

/-- The attribute list of a node (empty for a text node). -/
def Node.attrList : Node → List (String × String)
  | .text _ => []
  | .elem _ a _ => a

/-- `el.attrs.get(attr, "")`: the value of an attribute, with the
empty-string default when the attribute is absent. -/
def Node.getAttr (n : Node) (a : String) : String :=
  ((n.attrList).lookup a).getD ""

/-- A Python value appearing in the ctas list: a bare string (from a button)
or a dict record (from a link), dicts embedded as association lists. -/
inductive PyVal where
  | str : String → PyVal
  | dict : List (String × String) → PyVal
deriving Repr, DecidableEq

/-- `extract_content(soup, tag, attr)` with a non-None `attr`
(source lines 28-34): one record per matching element, holding the attribute
value (empty-string default) under the key `attr` and the stripped text under
the key "text". -/
def extract_content_attr (soup : Node) (tag attr : String) :
    List (List (String × String)) :=
  (soup.find_all tag).map
    (fun el => [(attr, el.getAttr attr), ("text", el.get_text_strip)])

/-- `extract_content(soup, tag)` with `attr=None` (source lines 28-36):
the stripped text of each matching element. -/
def extract_content_text (soup : Node) (tag : String) : List String :=
  (soup.find_all tag).map Node.get_text_strip

/-- The content brief assembled by `analyze_page_structure`
(source lines 48-58). -/
structure ContentBrief where
  headlines : List String
  body_texts : List String
  ctas : List PyVal
  images : List (List (String × String))
  videos : List (List (String × String))
deriving Repr, DecidableEq

/-- The six heading tags scanned for the headlines sequence, in the fixed
order of the loop at source line 57. -/
def heading_tags : List String := ["h1", "h2", "h3", "h4", "h5", "h6"]

/-- The scope selection of source lines 41-46: the first `article` element if
any, else the first `main`, else the first `body`; `none` when all three are
absent. -/
def scope_root (soup : Node) : Option Node :=
  if (soup.find "article").isSome then soup.find "article"
  else if (soup.find "main").isSome then soup.find "main"
  else soup.find "body"

/-- The brief built from a chosen scope section (source lines 48-58):
five category scans, all confined to the section's subtree. -/
def brief_of_section (sec : Node) : ContentBrief :=
  { headlines := heading_tags.flatMap (fun t => extract_content_text sec t)
  , body_texts := extract_content_text sec "p"
  , ctas := (extract_content_attr sec "a" "href").map PyVal.dict
      ++ (extract_content_text sec "button").map PyVal.str
  , images := extract_content_attr sec "img" "src"
  , videos := extract_content_attr sec "video" "src" }

/-- `analyze_page_structure(soup)` (source lines 40-60). When the scope
selection yields `None` (no article, main or body), the first
`extract_content` call raises AttributeError and no brief is produced,
modelled by `none`. -/
def analyze_page_structure (soup : Node) : Option ContentBrief :=
  (scope_root soup).map brief_of_section

/-- A role/content message pair of a chat request. -/
structure Message where
  role : String
  content : String
deriving Repr, DecidableEq

/-- Python str() of a values list element: strings are quoted, dict records
rendered as key/value pairs (quote escaping inside values is not modelled;
no claim depends on it). -/
def pyStr : PyVal → String
  | .str s => "'" ++ s ++ "'"
  | .dict kvs => "\x7b"
      ++ String.intercalate ", "
        (kvs.map (fun kv => "'" ++ kv.1 ++ "': '" ++ kv.2 ++ "'"))
      ++ "\x7d"

/-- Python str() of a list of values, as interpolated by the f-string. -/
def pyListStr (l : List PyVal) : String :=
  "[" ++ String.intercalate ", " (l.map pyStr) ++ "]"

/-- Python str() of a list of strings. -/
def pyStrListStr (l : List String) : String :=
  pyListStr (l.map PyVal.str)

/-- The fixed system prompt of the article-generation call
(source lines 148-151). -/
def system_prompt : Message :=
  { role := "system"
  , content := "You are a content creator. Based on the following components, generate a coherent and engaging article. Use the headlines, body texts, CTAs, images, and videos appropriately." }

/-- The user prompt of the article-generation call (source lines 153-161):
an f-string interpolating only the headlines, body_texts and ctas sequences
of the brief. -/
def user_prompt (brief : ContentBrief) : Message :=
  { role := "user"
  , content := "\n                    Here are the components:\n                    Headlines: "
      ++ pyStrListStr brief.headlines
      ++ "\n                    Body Texts: "
      ++ pyStrListStr brief.body_texts
      ++ "\n                    CTAs: "
      ++ pyListStr brief.ctas
      ++ "\n                    " }

/-- The outcome of each of the three external OpenAI calls, should it be
made: `none` models the exception path, in which the wrapper catches the
error and returns None (source lines 64-114). -/
structure GenOracle where
  articleResult : Option String
  summaryResult : Option String
  imageResult : Option String
deriving Repr, DecidableEq

/-- An external generation call made by the action, with the credential and
payload it is given. -/
inductive GenCall where
  | articleCall (apiKey : String) (messages : List Message)
  | summaryCall (apiKey : String) (article : String)
  | imageCall (apiKey : String) (prompt : String)
deriving Repr, DecidableEq

/-- An item rendered to the user by the action. -/
inductive Displayed where
  | imageUrl : String → Displayed
  | articleContent : String → Displayed
deriving Repr, DecidableEq

/-- Python truthiness of an Optional[str]: None and the empty string are
falsy. -/
def truthyStr : Option String → Bool
  | none => false
  | some s => s != ""

/-- The generation phase of a user action (source lines 148-181): the
article call is always made; on a truthy article the summary call follows;
on a truthy summary the image call follows; a truthy image URL is rendered
before the article text, which is rendered whenever the article result is
truthy. Returns the calls made and the items displayed, in order. -/
def generation_flow (apiKey : String) (brief : ContentBrief) (o : GenOracle) :
    List GenCall × List Displayed :=
  let prompts := [system_prompt, user_prompt brief]
  let calls₁ := [GenCall.articleCall apiKey prompts]
  if truthyStr o.articleResult then
    let content := (o.articleResult).getD ""
    let calls₂ := calls₁ ++ [GenCall.summaryCall apiKey content]
    if truthyStr o.summaryResult then
      let sp := (o.summaryResult).getD ""
      let calls₃ := calls₂ ++ [GenCall.imageCall apiKey sp]
      if truthyStr o.imageResult then
        (calls₃, [Displayed.imageUrl ((o.imageResult).getD ""),
                  Displayed.articleContent content])
      else
        (calls₃, [Displayed.articleContent content])
    else
      (calls₂, [Displayed.articleContent content])
  else
    (calls₁, [])

/-- One user action after a successful fetch (source lines 145-181):
`analyze_page_structure` on the parsed document, then the generation flow on
the resulting brief; `none` when the extraction step raises. -/
def run_action (soup : Node) (apiKey : String) (o : GenOracle) :
    Option (ContentBrief × (List GenCall × List Displayed)) :=
  match analyze_page_structure soup with
  | none => none
  | some brief => some (brief, generation_flow apiKey brief o)

/-- The heading texts of a section in document order, as the spec's
"headline sequence order must equal document order" demands: one pass over
the descendants, keeping every h1-h6 element as it is met. Written from the
spec's words, for comparison with the code's per-tag scans. -/
def spec_document_order_headlines (sec : Node) : List String :=
  (sec.descendants.filter
    (fun n => match n.tagOf with
      | some t => heading_tags.contains t
      | none => false)).map Node.get_text_strip

/-- Fixture: a body whose first heading is an h2, followed by an h1. -/
def c1_body : Node :=
  .elem "body" [] [.elem "h2" [] [.text "Beta"], .elem "h1" [] [.text "Alpha"]]

/-- Fixture: a document wrapping `c1_body`. -/
def c1_doc : Node :=
  .elem "[document]" [] [.elem "html" [] [c1_body]]

/-- C1 (counterexample): on a document whose h2 "Beta" precedes its h1
"Alpha", extraction outputs the h1 text first — ["Alpha", "Beta"] — while
document order is ["Beta", "Alpha"]; the headlines sequence is not in
document order across mixed heading levels. -/
theorem c1_counterexample :
    (analyze_page_structure c1_doc).map ContentBrief.headlines
        = some ["Alpha", "Beta"]
      ∧ spec_document_order_headlines c1_body = ["Beta", "Alpha"]
      ∧ (["Alpha", "Beta"] : List String) ≠ ["Beta", "Alpha"] := by
  refine ⟨rfl, rfl, by decide⟩

/-- C1 (amended): the headlines sequence is level-major, not document-major:
it is the concatenation of the six per-tag scans h1, h2, ..., h6 of the
scope section, each scan in document order. -/
theorem c1_headlines_level_major (soup sec : Node)
    (h : scope_root soup = some sec) :
    (analyze_page_structure soup).map ContentBrief.headlines
      = some (extract_content_text sec "h1" ++ extract_content_text sec "h2"
          ++ extract_content_text sec "h3" ++ extract_content_text sec "h4"
          ++ extract_content_text sec "h5" ++ extract_content_text sec "h6") := by
  simp [analyze_page_structure, h, brief_of_section, heading_tags]

/-- C1 (witness): the amended statement evaluated on the mixed-level
fixture. -/
theorem c1_headlines_level_major_witness :
    (analyze_page_structure c1_doc).map ContentBrief.headlines
      = some (extract_content_text c1_body "h1"
          ++ extract_content_text c1_body "h2"
          ++ extract_content_text c1_body "h3"
          ++ extract_content_text c1_body "h4"
          ++ extract_content_text c1_body "h5"
          ++ extract_content_text c1_body "h6") :=
  c1_headlines_level_major c1_doc c1_body rfl

/-- C3: scope selection follows the fixed first-match priority
article, then main, then body: when a first article exists the whole brief
is computed from that article subtree alone (so content outside it is
ignored); otherwise a first main is used; otherwise the first body,
extraction failing when even that is absent. -/
theorem c3_scope_priority (soup : Node) :
    (∀ a, soup.find "article" = some a →
        analyze_page_structure soup = some (brief_of_section a))
    ∧ (soup.find "article" = none → ∀ m, soup.find "main" = some m →
        analyze_page_structure soup = some (brief_of_section m))
    ∧ (soup.find "article" = none → soup.find "main" = none →
        analyze_page_structure soup = (soup.find "body").map brief_of_section) := by
  refine ⟨?_, ?_, ?_⟩
  · intro a ha
    simp [analyze_page_structure, scope_root, ha]
  · intro h0 m hm
    simp [analyze_page_structure, scope_root, h0, hm]
  · intro h0 h1
    simp [analyze_page_structure, scope_root, h0, h1]

/-- Fixture: an article with a paragraph inside it. -/
def c3_article : Node :=
  .elem "article" [] [.elem "p" [] [.text "inside"]]

/-- Fixture: a document whose body holds the article plus a sibling
paragraph outside it. -/
def c3_doc : Node :=
  .elem "[document]" []
    [.elem "body" [] [c3_article, .elem "p" [] [.text "outside"]]]

/-- C3 (witness): on a document with an article and sibling content, the
brief is computed from the article subtree alone. -/
theorem c3_scope_priority_witness :
    analyze_page_structure c3_doc = some (brief_of_section c3_article) :=
  (c3_scope_priority c3_doc).1 c3_article rfl

/-- Fixture: a document containing none of article, main or body. -/
def c4_doc : Node :=
  .elem "[document]" [] [.elem "div" [] [.elem "p" [] [.text "stray"]]]

/-- C4 (counterexample): on a parsed document with no article, no main and
no body element, the scope selection yields None and extraction produces no
ContentBrief (the first extract_content call raises AttributeError) —
extraction is not total. -/
theorem c4_counterexample : analyze_page_structure c4_doc = none := rfl

/-- C4 (amended): extraction does return a ContentBrief whenever the parsed
document contains at least one article, main or body element; only when all
three are absent does the scope root come out None and extraction fail. -/
theorem c4_total_with_scope (soup : Node)
    (h : (soup.find "article").isSome ∨ (soup.find "main").isSome
        ∨ (soup.find "body").isSome) :
    (analyze_page_structure soup).isSome := by
  rcases h with h | h | h <;>
    simp only [analyze_page_structure, scope_root, Option.isSome_map] <;>
    split_ifs <;> simp_all

/-- Fixture: a document with a body and nothing fancier. -/
def c4_body_doc : Node :=
  .elem "[document]" [] [.elem "body" [] [.elem "p" [] [.text "hello"]]]

/-- C4 (witness): the amended statement evaluated on a body-only
document. -/
theorem c4_total_with_scope_witness :
    (analyze_page_structure c4_body_doc).isSome :=
  c4_total_with_scope c4_body_doc (Or.inr (Or.inr (by decide)))

/-- Fixture: a document whose body holds one img with a src but neither a
width nor a height attribute. -/
def c2_doc : Node :=
  .elem "[document]" []
    [.elem "body" [] [.elem "img" [("src", "x.png")] []]]

/-- C2 (counterexample): for an img lacking width and height, the extracted
record is [("src", "x.png"), ("text", "")] — it has no width field, no
height field, and the string "auto" appears nowhere in it. -/
theorem c2_counterexample :
    (analyze_page_structure c2_doc).map ContentBrief.images
        = some [[("src", "x.png"), ("text", "")]]
      ∧ List.lookup "width" [("src", "x.png"), ("text", "")]
          = (none : Option String)
      ∧ List.lookup "height" [("src", "x.png"), ("text", "")]
          = (none : Option String)
      ∧ "auto" ∉ List.map Prod.snd [("src", "x.png"), ("text", "")] :=
  ⟨rfl, rfl, rfl, by decide⟩

/-- C2 (amended): every record of the images sequence carries exactly the
two fields "src" (the src attribute, empty-string default) and "text" (the
stripped inner text); alt, width and height fields are never present and no
"auto" sentinel is produced. -/
theorem c2_images_fields (soup : Node) (b : ContentBrief)
    (h : analyze_page_structure soup = some b) :
    ∀ rec ∈ b.images, rec.map Prod.fst = ["src", "text"] := by
  rw [analyze_page_structure] at h
  obtain ⟨sec, _, rfl⟩ := Option.map_eq_some'.mp h
  intro rec hrec
  simp only [brief_of_section, extract_content_attr] at hrec
  obtain ⟨el, _, rfl⟩ := List.mem_map.mp hrec
  rfl

/-- Fixture: a body with one attribute-less-besides-src img. -/
def c2w_body : Node := .elem "body" [] [.elem "img" [("src", "y.png")] []]

/-- Fixture: a document wrapping `c2w_body`. -/
def c2w_doc : Node := .elem "[document]" [] [c2w_body]

/-- C2 (witness): the amended statement evaluated on the img fixture. -/
theorem c2_images_fields_witness :
    List.map Prod.fst [("src", "y.png"), ("text", "")] = ["src", "text"] :=
  c2_images_fields c2w_doc (brief_of_section c2w_body) rfl
    [("src", "y.png"), ("text", "")] (by decide)

/-- C7: the ctas sequence is the concatenation, links first, of one dict
record per a element — its href attribute with the empty-string default and
its stripped text — followed by one bare stripped-text entry per button
element. -/
theorem c7_ctas_links_then_buttons (soup sec : Node)
    (h : scope_root soup = some sec) :
    (analyze_page_structure soup).map ContentBrief.ctas
      = some ((sec.find_all "a").map (fun el =>
            PyVal.dict [("href", el.getAttr "href"), ("text", el.get_text_strip)])
          ++ (sec.find_all "button").map (fun el => PyVal.str el.get_text_strip)) := by
  simp only [analyze_page_structure, h, Option.map_map, Option.map_some,
    Option.map_some', brief_of_section, extract_content_attr,
    extract_content_text, List.map_map]
  rfl

/-- Fixture: a body with a link carrying an href, a link without one, and a
button. -/
def c7_body : Node :=
  .elem "body" []
    [.elem "a" [("href", "/go")] [.text "Go"],
     .elem "a" [] [.text "Bare"],
     .elem "button" [] [.text "Press"]]

/-- Fixture: a document wrapping `c7_body`. -/
def c7_doc : Node := .elem "[document]" [] [c7_body]

/-- C7 (witness): the statement evaluated on the link/button fixture. -/
theorem c7_ctas_links_then_buttons_witness :
    (analyze_page_structure c7_doc).map ContentBrief.ctas
      = some ((c7_body.find_all "a").map (fun el =>
            PyVal.dict [("href", el.getAttr "href"), ("text", el.get_text_strip)])
          ++ (c7_body.find_all "button").map (fun el => PyVal.str el.get_text_strip)) :=
  c7_ctas_links_then_buttons c7_doc c7_body rfl

/-- Fixture: a document whose only heading is an h1 with text "Title". -/
def c8_h1_doc : Node :=
  .elem "[document]" [] [.elem "body" [] [.elem "h1" [] [.text "Title"]]]

/-- Fixture: the same document with the heading demoted to h3. -/
def c8_h3_doc : Node :=
  .elem "[document]" [] [.elem "body" [] [.elem "h3" [] [.text "Title"]]]

/-- C8 (counterexample): the headlines entry for a heading is the bare
string "Title", not a \x7blevel, text\x7d record: an h1 and an h3 with the
same text yield literally identical headlines sequences, so no level field
exists in the output. -/
theorem c8_counterexample :
    (analyze_page_structure c8_h1_doc).map ContentBrief.headlines
        = some ["Title"]
      ∧ (analyze_page_structure c8_h3_doc).map ContentBrief.headlines
        = some ["Title"] :=
  ⟨rfl, rfl⟩

/-- C8 (amended): every headlines entry is the bare stripped text of some
h1-h6 element of the scope section; the heading's level is not recorded. -/
theorem c8_headlines_bare_text (soup sec : Node)
    (h : scope_root soup = some sec) (b : ContentBrief)
    (hb : analyze_page_structure soup = some b) :
    ∀ x ∈ b.headlines, ∃ t ∈ heading_tags, ∃ el ∈ sec.find_all t,
      x = el.get_text_strip := by
  rw [analyze_page_structure, h, Option.map_some'] at hb
  obtain rfl := Option.some_injective _ hb.symm
  intro x hx
  simp only [brief_of_section] at hx
  obtain ⟨t, ht, hx⟩ := List.mem_flatMap.mp hx
  simp only [extract_content_text] at hx
  obtain ⟨el, hel, rfl⟩ := List.mem_map.mp hx
  exact ⟨t, ht, el, hel, rfl⟩

/-- Fixture: a body whose only heading is an h2 with text "Head". -/
def c8w_body : Node := .elem "body" [] [.elem "h2" [] [.text "Head"]]

/-- Fixture: a document wrapping `c8w_body`. -/
def c8w_doc : Node := .elem "[document]" [] [c8w_body]

/-- C8 (witness): the amended statement evaluated on the h2 fixture. -/
theorem c8_headlines_bare_text_witness :
    ∃ t ∈ heading_tags, ∃ el ∈ c8w_body.find_all t,
      "Head" = el.get_text_strip :=
  c8_headlines_bare_text c8w_doc c8w_body rfl (brief_of_section c8w_body) rfl
    "Head" (by decide)

/-- C5: the user message of the article-generation call is built from the
headlines, body_texts and ctas sequences alone — two briefs agreeing on
those three fields yield the same prompt whatever their images and videos
sequences hold, so images and videos never reach the text-generation
prompt. -/
theorem c5_prompt_depends_only_on_text_fields (b₁ b₂ : ContentBrief)
    (hh : b₁.headlines = b₂.headlines) (hb : b₁.body_texts = b₂.body_texts)
    (hc : b₁.ctas = b₂.ctas) :
    user_prompt b₁ = user_prompt b₂ := by
  simp only [user_prompt, hh, hb, hc]

/-- Fixture: a brief with media content present. -/
def c5_b1 : ContentBrief :=
  { headlines := ["H"], body_texts := ["B"], ctas := [PyVal.str "C"]
  , images := [[("src", "i.png"), ("text", "")]]
  , videos := [[("src", "v.mp4"), ("text", "")]] }

/-- Fixture: the same brief with the media sequences emptied. -/
def c5_b2 : ContentBrief :=
  { headlines := ["H"], body_texts := ["B"], ctas := [PyVal.str "C"]
  , images := [], videos := [] }

/-- C5 (witness): the statement evaluated on two briefs differing only in
images and videos. -/
theorem c5_prompt_depends_only_on_text_fields_witness :
    user_prompt c5_b1 = user_prompt c5_b2 :=
  c5_prompt_depends_only_on_text_fields c5_b1 c5_b2 rfl rfl rfl

/-- C6: when the article-generation call returns the error result None, the
action makes no further external call: the call list is exactly the single
article call — the summary and image calls are never invoked. -/
theorem c6_halt_on_article_failure (apiKey : String) (brief : ContentBrief)
    (o : GenOracle) (h : o.articleResult = none) :
    (generation_flow apiKey brief o).1
      = [GenCall.articleCall apiKey [system_prompt, user_prompt brief]] := by
  simp [generation_flow, h, truthyStr]

/-- Fixture: an oracle whose article call fails while the later services
would have answered. -/
def c6_oracle : GenOracle :=
  { articleResult := none, summaryResult := some "would summarize"
  , imageResult := some "http://img" }

/-- Fixture: a brief with every sequence empty. -/
def empty_brief : ContentBrief :=
  { headlines := [], body_texts := [], ctas := [], images := [], videos := [] }

/-- C6 (witness): the statement evaluated on the failing-article oracle. -/
theorem c6_halt_on_article_failure_witness :
    (generation_flow "key" empty_brief c6_oracle).1
      = [GenCall.articleCall "key" [system_prompt, user_prompt empty_brief]] :=
  c6_halt_on_article_failure "key" empty_brief c6_oracle rfl

/-- C9: when the article-generation call succeeds with (non-empty, hence
truthy) text s, that text is displayed whatever the summary and image calls
return — a later failure never suppresses the already-obtained article. -/
theorem c9_article_always_shown (apiKey : String) (brief : ContentBrief)
    (o : GenOracle) (s : String) (ha : o.articleResult = some s)
    (hs : s ≠ "") :
    Displayed.articleContent s ∈ (generation_flow apiKey brief o).2 := by
  have ht : truthyStr (some s) = true := by simp [truthyStr, hs]
  simp only [generation_flow, ha, ht, if_true]
  split_ifs <;> simp

/-- Fixture: an oracle whose article call succeeds and whose summary call
then fails. -/
def c9_oracle : GenOracle :=
  { articleResult := some "Art", summaryResult := none, imageResult := none }

/-- C9 (witness): the statement evaluated where the summary call fails right
after a successful article call. -/
theorem c9_article_always_shown_witness :
    Displayed.articleContent "Art" ∈ (generation_flow "key" empty_brief c9_oracle).2 :=
  c9_article_always_shown "key" empty_brief c9_oracle "Art" rfl (by decide)

/-- C10: extraction is deterministic and depends only on the parsed
document: across any two runs of the action on the same document, whatever
the credential and whatever the generation services return, the ContentBrief
component is identical. -/
theorem c10_extraction_deterministic (soup : Node) (k₁ k₂ : String)
    (o₁ o₂ : GenOracle) :
    (run_action soup k₁ o₁).map Prod.fst
      = (run_action soup k₂ o₂).map Prod.fst := by
  unfold run_action
  cases analyze_page_structure soup <;> rfl

end ContentBriefApp
